import Mathlib

/-!
Shallow embedding of the URL Content Scraper (src/app.py) and proofs of the
specification claims about it.

The program has three pieces of logic:

* `scrape_url` (app.py lines 45-65): one HTTP POST to the scraping API,
  returning `(json, None)` on success and `(None, str(e))` when the request
  raises; the HTTP world is modelled as an environment function from the
  request to either a parsed JSON payload or an exception message.
* the main scrape loop (app.py lines 144-170): sequential iteration over the
  URL list, partitioning outcomes into `results` and `errors`, sleeping
  between consecutive URLs.
* `read_urls_from_file` (app.py lines 68-101): extension dispatch, URL-column
  selection, and `dropna` extraction of the column values.  Pandas parsing is
  external, so an uploaded file is modelled as a name plus the parse outcome
  (a table of named columns, `none` for a parse failure); pandas represents
  missing and empty cells of the parsed table as NaN, modelled by `none`
  cells.

Python-specific behaviour is kept explicit: dictionary `get` with defaults,
truthiness tests (`if error:`, `if result.get('text')`, `if results:`), and
the fact that `len` of a non-string raises (modelled by `Option`).
-/

/-- JSON-compatible values as they appear in the response payload.  Only the
scalar shapes matter to the program; `truthy` mirrors Python truthiness. -/
inductive JVal where
  | jnull
  | jbool (b : Bool)
  | jnum (n : Int)
  | jstr (s : String)
deriving DecidableEq

/-- Python truthiness of a JSON value: `None`, `False`, `0` and `""` are
falsy, everything else is truthy. -/
def JVal.truthy : JVal → Bool
  | .jnull => false
  | .jbool b => b
  | .jnum n => n != 0
  | .jstr s => s != ""

/-- A JSON object (the raw API response body): an association list of fields,
first binding wins, mirroring a Python dict. -/
abbrev RawPayload := List (String × JVal)

/-- Field lookup in a payload: `d.get(k)` semantics, `none` when the key is
absent. -/
def pget (p : RawPayload) (k : String) : Option JVal :=
  (p.find? (fun kv => kv.1 == k)).map (fun kv => kv.2)

/-- Python `len` on a JSON value: defined on strings, raises otherwise
(modelled as `none`). -/
def pyLen : JVal → Option Nat
  | .jstr s => some s.length
  | _ => none

/-- The guarded length computation of app.py lines 163-164:
`len(result.get(k, '')) if result.get(k) else 0`.  An absent or falsy field
gives `0` without ever calling `len`; a truthy field is measured by `len`,
which raises (`none`) on non-strings. -/
def fieldLen (p : RawPayload) (k : String) : Option Nat :=
  match pget p k with
  | none => some 0
  | some v => if v.truthy then pyLen v else some 0

/-- One request to the scraping endpoint: the JSON body carries `url` and
`includeMarkdown`, the header carries the API key (app.py lines 50-58). -/
structure ScrapeRequest where
  url : String
  apiKey : String
  includeMarkdown : Bool
deriving DecidableEq

/-- Outcome of the HTTP interaction for one request, as observed by the
`try` block of `scrape_url`: either a 2xx response whose body parsed to a
JSON object, or a raised `requests` exception (non-2xx via
`raise_for_status`, transport failure, or body-parse failure) whose `str`
is `msg`. -/
inductive HttpOutcome where
  | ok (payload : RawPayload)
  | exn (msg : String)
deriving DecidableEq

/-- The external HTTP world: a response for every possible request. -/
abbrev HttpEnv := ScrapeRequest → HttpOutcome

/-- Embedding of `scrape_url` (app.py lines 45-65): returns
`(response.json(), None)` on success and `(None, str(e))` when the request
raised. -/
def scrape_url (env : HttpEnv) (url api_key : String) (include_markdown : Bool) :
    Option RawPayload × Option String :=
  match env ⟨url, api_key, include_markdown⟩ with
  | .ok p => (some p, none)
  | .exn m => (none, some m)

/-- Python truthiness of the `error` variable (`None` or a string):
`if error:` is taken only for a non-empty message. -/
def pyTruthyStr : Option String → Bool
  | none => false
  | some s => s != ""

/-- One entry of the `results` list (app.py lines 159-166).  `title` and
`description` are stored as the raw JSON values `result.get(k, 'N/A')`
produces. -/
structure ResultRow where
  url : String
  title : JVal
  description : JVal
  content_length : Nat
  markdown_length : Nat
  full_result : RawPayload
deriving DecidableEq

/-- One entry of the `errors` list (app.py lines 154-157). -/
structure ErrorRow where
  url : String
  error : String
deriving DecidableEq

/-- Building the dict appended to `results` (app.py lines 159-166).  The two
length computations can raise on truthy non-string fields, so the row is
`none` exactly when the Python code would raise. -/
def mkRow (url : String) (p : RawPayload) : Option ResultRow :=
  match fieldLen p "text", fieldLen p "markdown" with
  | some cl, some ml =>
    some { url := url
         , title := (pget p "title").getD (.jstr "N/A")
         , description := (pget p "description").getD (.jstr "N/A")
         , content_length := cl
         , markdown_length := ml
         , full_result := p }
  | _, _ => none

/-- One iteration of the scrape loop body (app.py lines 151-166): call
`scrape_url`, then branch on `if error:`.  In the else-branch the code calls
`result.get`, which raises (`none`) if `result` is `None` — reachable only
when the exception message was the empty string. -/
def processUrl (env : HttpEnv) (api_key : String) (im : Bool) (url : String) :
    Option (Sum ResultRow ErrorRow) :=
  let re := scrape_url env url api_key im
  if pyTruthyStr re.2 then some (Sum.inr ⟨url, re.2.getD ""⟩)
  else
    match re.1 with
    | some p => (mkRow url p).map Sum.inl
    | none => none

/-- State accumulated by one full run of the scrape loop: the `results` and
`errors` lists in append order, and the number of `time.sleep` calls. -/
structure RunOutcome where
  results : List ResultRow
  errors : List ErrorRow
  sleeps : Nat
deriving DecidableEq

/-- Embedding of the scrape loop (app.py lines 144-170): process the URLs in
input order; after each URL except the last, sleep once (`if i < len(urls) -
1: time.sleep(rate_limit)`).  `none` means an uncaught exception aborted the
loop. -/
def runScrape (env : HttpEnv) (api_key : String) (im : Bool) :
    List String → Option RunOutcome
  | [] => some ⟨[], [], 0⟩
  | url :: rest =>
    match processUrl env api_key im url with
    | none => none
    | some step =>
      match runScrape env api_key im rest with
      | none => none
      | some o =>
        let s : Nat := if rest.isEmpty then 0 else 1
        match step with
        | Sum.inl r => some ⟨r :: o.results, o.errors, s + o.sleeps⟩
        | Sum.inr e => some ⟨o.results, e :: o.errors, s + o.sleeps⟩

/-- Lowercasing a string character by character, the model of `str.lower()`. -/
def lowerChars (s : String) : List Char := s.toList.map Char.toLower

/-- Splitting a character list at every dot, the model of `name.split('.')`;
always returns a non-empty list, whole input when there is no dot. -/
def splitDots : List Char → List (List Char)
  | [] => [[]]
  | c :: t =>
    if c = '.' then [] :: splitDots t
    else
      match splitDots t with
      | [] => [[c]]
      | h :: r => (c :: h) :: r

/-- Embedding of `file_name.split('.')[-1].lower()` (app.py line 74): the
lowercased text after the last dot (the whole name when it has no dot). -/
def fileExtension (name : String) : String :=
  String.mk (((splitDots name.toList).getLast?.getD []).map Char.toLower)

/-- Substring test on character lists: `needle` occurs contiguously in the
second argument. -/
def containsSub (needle : List Char) : List Char → Bool
  | [] => needle.isEmpty
  | h :: t => needle.isPrefixOf (h :: t) || containsSub needle t

/-- Embedding of `'url' in col.lower()` (app.py line 86). -/
def containsUrl (col : String) : Bool := containsSub "url".toList (lowerChars col)

/-- Embedding of the column-selection logic (app.py lines 86-93): the first
column whose lowered name contains "url"; otherwise the first column with
the warning flag set; `none` models the `IndexError` on a zero-column table
(caught by the surrounding `except`). -/
def selectColumn (cols : List String) : Option (String × Bool) :=
  match cols.filter containsUrl with
  | c :: _ => some (c, false)
  | [] =>
    match cols with
    | c :: _ => some (c, true)
    | [] => none

/-- A parsed table: named columns in order, rows of cells aligned with the
columns.  A `none` cell is a pandas NaN; pandas parses missing and empty
cells to NaN. -/
structure Table where
  columns : List String
  rows : List (List (Option String))
deriving DecidableEq

/-- An uploaded file: its declared name, and the outcome pandas parsing
would give (`none` when `read_csv` / `read_excel` raises). -/
structure UploadedFile where
  name : String
  parsed : Option Table
deriving DecidableEq

/-- Position of a column name in the header, first occurrence. -/
def colIdx (cols : List String) (c : String) : Nat :=
  cols.findIdx (fun d => d == c)

/-- Cell of a row at a position, NaN (`none`) when the row is shorter. -/
def cellAt : List (Option String) → Nat → Option String
  | [], _ => none
  | c :: _, 0 => c
  | _ :: r, n + 1 => cellAt r n

/-- The sequence of cells of column `c`, in row order: the series `df[c]`. -/
def columnValues (t : Table) (c : String) : List (Option String) :=
  t.rows.map (fun r => cellAt r (colIdx t.columns c))

/-- Embedding of `df[url_column].dropna().tolist()` (app.py line 96): the
non-NaN cells of the selected column, in row order. -/
def extractUrls (t : Table) (c : String) : List String :=
  (columnValues t c).filterMap id

/-- Observable outcome of `read_urls_from_file`: the extracted URL list with
the no-URL-column warning flag, or one of the two fatal error messages
(unsupported format, or the caught read exception). -/
inductive ReadOutcome where
  | urls (l : List String) (warned : Bool)
  | unsupportedFormat
  | readError
deriving DecidableEq

/-- The extensions accepted by the dispatch of app.py lines 77-80. -/
def supportedExtensions : List String := ["csv", "xlsx", "xls"]

/-- Embedding of `read_urls_from_file` (app.py lines 68-101): dispatch on
the declared extension, parse, select a column, extract its non-NaN
values. -/
def read_urls_from_file (f : UploadedFile) : ReadOutcome :=
  let ext := fileExtension f.name
  if ext == "csv" || ext == "xlsx" || ext == "xls" then
    match f.parsed with
    | none => .readError
    | some df =>
      match selectColumn df.columns with
      | some (c, w) => .urls (extractUrls df c) w
      | none => .readError
  else .unsupportedFormat

/-- The URL list the scrape section of the app would operate on (app.py
lines 116-118 and 144): `none` when `read_urls_from_file` returned `None`
or an empty (falsy) list, in which case the scrape loop — and hence the
Scrape Client — is never reached. -/
def urlsToScrape (f : UploadedFile) : Option (List String) :=
  match read_urls_from_file f with
  | .urls l _ => if l.isEmpty then none else some l
  | _ => none

/-- Which download artifacts the app offers after a run: the summary CSV and
the aggregate JSON are guarded by `if results:` (app.py lines 183 and 261),
the errors CSV by `if errors:` (line 245). -/
structure ExportOffers where
  summaryCsv : Bool
  errorsCsv : Bool
  aggregateJson : Bool
deriving DecidableEq

/-- Embedding of the three export guards. -/
def exportOffers (results : List ResultRow) (errors : List ErrorRow) : ExportOffers :=
  { summaryCsv := !results.isEmpty
  , errorsCsv := !errors.isEmpty
  , aggregateJson := !results.isEmpty }

/-- Whether the HTTP outcome is a success, spec-side view. -/
def isOk : HttpOutcome → Bool
  | .ok _ => true
  | .exn _ => false

/-- Well-formedness of one HTTP outcome, the conditions under which the loop
body cannot raise: an exception carries a non-empty message (as `requests`
exception strings do), and on success the `text` and `markdown` fields are
not truthy non-strings (so `len` is applicable where the guard reaches it). -/
def outcomeWF : HttpOutcome → Bool
  | .ok p => (fieldLen p "text").isSome && (fieldLen p "markdown").isSome
  | .exn m => m != ""

/-- The result row one URL contributes, if any. -/
def stepResult (env : HttpEnv) (k : String) (im : Bool) (u : String) :
    Option ResultRow :=
  match processUrl env k im u with
  | some (Sum.inl r) => some r
  | _ => none

/-- The error row one URL contributes, if any. -/
def stepError (env : HttpEnv) (k : String) (im : Bool) (u : String) :
    Option ErrorRow :=
  match processUrl env k im u with
  | some (Sum.inr e) => some e
  | _ => none

/-- A payload field that is absent or holds a string — the shape the spec
assigns to the optional `title` / `description` / `text` / `markdown`
fields. -/
def strOrAbsent (p : RawPayload) (k : String) : Bool :=
  match pget p k with
  | none => true
  | some (.jstr _) => true
  | some _ => false

/-- Modelled from the spec: the value of the optional string field `k`, with
default `d` when the field is absent — the spec's "rawPayload.k or d" for
optional string fields. -/
def specField (p : RawPayload) (k d : String) : String :=
  match pget p k with
  | some (.jstr s) => s
  | _ => d

/-- A table as pandas delivers it: no cell holds the empty string, since
empty cells parse to NaN. -/
def normalizedTable (t : Table) : Bool :=
  t.rows.all (fun r => r.all (fun c => c != some ""))

/-- Total time spent in `time.sleep` over one run. -/
def totalSleepTime (o : RunOutcome) (delay : ℚ) : ℚ := (o.sleeps : ℚ) * delay

/-- Demo payload for the spec scenario: `{"title": "Example", "text": "hello"}`
(no `markdown`, no `description`). -/
def demoPayloadA : RawPayload := [("title", .jstr "Example"), ("text", .jstr "hello")]

/-- Demo payload with only a `markdown` field. -/
def demoPayloadC : RawPayload := [("markdown", .jstr "md")]

/-- Demo HTTP world: two URLs succeed, one fails with an HTTP 500. -/
def demoEnv : HttpEnv := fun r =>
  if r.url = "https://a.com" then .ok demoPayloadA
  else if r.url = "https://c.com" then .ok demoPayloadC
  else .exn "500 Server Error: Internal Server Error"

/-- Demo input list of three URLs. -/
def demoUrls : List String := ["https://a.com", "https://b.com", "https://c.com"]

/-- The result row the demo run produces for the first URL. -/
def demoRowA : ResultRow :=
  { url := "https://a.com", title := .jstr "Example", description := .jstr "N/A"
  , content_length := 5, markdown_length := 0, full_result := demoPayloadA }

/-- The result row the demo run produces for the third URL. -/
def demoRowC : ResultRow :=
  { url := "https://c.com", title := .jstr "N/A", description := .jstr "N/A"
  , content_length := 0, markdown_length := 2, full_result := demoPayloadC }

/-- The full outcome of the demo run: two successes, one failure, two sleeps. -/
def demoOut : RunOutcome :=
  ⟨[demoRowA, demoRowC], [⟨"https://b.com", "500 Server Error: Internal Server Error"⟩], 2⟩

/-- Demo HTTP world in which every request fails. -/
def demoFailEnv : HttpEnv := fun _ => .exn "connection refused"

/-- Outcome of running `demoFailEnv` over a single URL. -/
def demoFailOut : RunOutcome := ⟨[], [⟨"https://a.com", "connection refused"⟩], 0⟩

/-- Demo table whose URL column is the second column. -/
def demoTable : Table :=
  ⟨["name", "Landing URL"], [[some "Acme", some "https://a.com"], [some "Beta", none]]⟩

/-- Demo uploaded CSV file wrapping `demoTable`. -/
def demoFile : UploadedFile := ⟨"sites.csv", some demoTable⟩

/-- Demo table for the dropped-empty-row scenario: column `URL` with values
`https://a.com`, an empty cell (NaN after parsing), `https://b.com`. -/
def demoUrlTable : Table :=
  ⟨["URL"], [[some "https://a.com"], [none], [some "https://b.com"]]⟩

/-- Demo uploaded file with an unsupported extension. -/
def demoTxtFile : UploadedFile := ⟨"urls.txt", some demoUrlTable⟩

/-- Demo payload whose `text` and `markdown` fields are JSON `null`. -/
def demoNullPayload : RawPayload := [("text", JVal.jnull), ("markdown", JVal.jnull)]

/-- Helper: a well-formed success outcome makes the loop body append the row
`mkRow` builds, and that row carries the URL. -/
theorem processUrl_ok (env : HttpEnv) (k : String) (im : Bool) (u : String)
    (p : RawPayload) (hp : env ⟨u, k, im⟩ = HttpOutcome.ok p)
    (hwf : outcomeWF (HttpOutcome.ok p) = true) :
    ∃ r, mkRow u p = some r ∧ processUrl env k im u = some (Sum.inl r) ∧ r.url = u := by
  simp only [outcomeWF, Bool.and_eq_true, Option.isSome_iff_exists] at hwf
  obtain ⟨⟨cl, hcl⟩, ml, hml⟩ := hwf
  have hmk : mkRow u p = some
      { url := u
      , title := (pget p "title").getD (.jstr "N/A")
      , description := (pget p "description").getD (.jstr "N/A")
      , content_length := cl
      , markdown_length := ml
      , full_result := p } := by
    simp [mkRow, hcl, hml]
  exact ⟨_, hmk, by simp [processUrl, scrape_url, hp, pyTruthyStr, hmk], rfl⟩

/-- Helper: an exception with a non-empty message makes the loop body append
the error row `{url, str(e)}`. -/
theorem processUrl_exn (env : HttpEnv) (k : String) (im : Bool) (u m : String)
    (hm : env ⟨u, k, im⟩ = HttpOutcome.exn m) (hne : m ≠ "") :
    processUrl env k im u = some (Sum.inr ⟨u, m⟩) := by
  simp [processUrl, scrape_url, hm, pyTruthyStr, bne_iff_ne, hne]

/-- Helper: characterization of a completed run over well-formed outcomes:
the loop terminates, the two output lists are the per-URL contributions in
input order, their lengths add up to the input length, the projections to
URLs are the success/failure filters of the input, and the loop slept once
per URL except the last. -/
theorem runScrape_char (env : HttpEnv) (k : String) (im : Bool) (urls : List String) :
    (∀ u ∈ urls, outcomeWF (env ⟨u, k, im⟩) = true) →
    ∃ out, runScrape env k im urls = some out ∧
      out.results = urls.filterMap (stepResult env k im) ∧
      out.errors = urls.filterMap (stepError env k im) ∧
      out.results.length + out.errors.length = urls.length ∧
      out.results.map ResultRow.url = urls.filter (fun u => isOk (env ⟨u, k, im⟩)) ∧
      out.errors.map ErrorRow.url = urls.filter (fun u => !isOk (env ⟨u, k, im⟩)) ∧
      out.sleeps = urls.length - 1 := by
  induction urls with
  | nil =>
    intro _
    exact ⟨⟨[], [], 0⟩, rfl, by simp, by simp, by simp, by simp, by simp, rfl⟩
  | cons u rest ih =>
    intro h
    have hu : outcomeWF (env ⟨u, k, im⟩) = true := h u (List.mem_cons_self _ _)
    obtain ⟨o, ho, hres, herr, hlen, hmapr, hmape, hsl⟩ :=
      ih (fun v hv => h v (List.mem_cons_of_mem _ hv))
    cases henv : env ⟨u, k, im⟩ with
    | ok p =>
      obtain ⟨r, hmk, hproc, hurl⟩ := processUrl_ok env k im u p henv (henv ▸ hu)
      have hstep : stepResult env k im u = some r := by simp [stepResult, hproc]
      have hstepE : stepError env k im u = none := by simp [stepError, hproc]
      refine ⟨⟨r :: o.results, o.errors, (if rest.isEmpty then 0 else 1) + o.sleeps⟩,
        ?_, ?_, ?_, ?_, ?_, ?_, ?_⟩
      · simp [runScrape, hproc, ho]
      · simp [List.filterMap_cons, hstep, hres]
      · simp [List.filterMap_cons, hstepE, herr]
      · simp only [List.length_cons, List.length]
        omega
      · simp [List.filter_cons, henv, isOk, hurl, hmapr]
      · simp [List.filter_cons, henv, isOk, hmape]
      · cases rest with
        | nil => simp at hsl; simp [hsl]
        | cons a t =>
          simp at hsl ⊢
          omega
    | exn m =>
      have hne : m ≠ "" := by
        rw [henv] at hu
        simpa [outcomeWF, bne_iff_ne] using hu
      have hproc := processUrl_exn env k im u m henv hne
      have hstep : stepResult env k im u = none := by simp [stepResult, hproc]
      have hstepE : stepError env k im u = some ⟨u, m⟩ := by simp [stepError, hproc]
      refine ⟨⟨o.results, ErrorRow.mk u m :: o.errors, (if rest.isEmpty then 0 else 1) + o.sleeps⟩,
        ?_, ?_, ?_, ?_, ?_, ?_, ?_⟩
      · simp [runScrape, hproc, ho]
      · simp [List.filterMap_cons, hstep, hres]
      · simp [List.filterMap_cons, hstepE, herr]
      · simp only [List.length_cons, List.length]
        omega
      · simp [List.filter_cons, henv, isOk, hmapr]
      · simp [List.filter_cons, henv, isOk, hmape]
      · cases rest with
        | nil => simp at hsl; simp [hsl]
        | cons a t =>
          simp at hsl ⊢
          omega

/-- Claim C1: in every completed run of the scrape loop over well-formed HTTP
outcomes, each URL produces exactly one outcome, so the number of result rows
plus the number of error rows equals the number of input URLs. -/
theorem run_success_plus_failure_eq_total (env : HttpEnv) (k : String) (im : Bool)
    (urls : List String) (out : RunOutcome)
    (hwf : ∀ u ∈ urls, outcomeWF (env ⟨u, k, im⟩) = true)
    (hrun : runScrape env k im urls = some out) :
    out.results.length + out.errors.length = urls.length := by
  obtain ⟨o, ho, _, _, hlen, _, _, _⟩ := runScrape_char env k im urls hwf
  rw [ho] at hrun
  injection hrun with h2
  rw [← h2]
  exact hlen

/-- Witness for C1: the three-URL demo run has 2 successes and 1 failure. -/
theorem run_success_plus_failure_eq_total_witness :
    demoOut.results.length + demoOut.errors.length = demoUrls.length :=
  run_success_plus_failure_eq_total demoEnv "k" true demoUrls demoOut
    (by decide) (by decide)

/-- Claim C2: a failed HTTP interaction (non-2xx status, transport failure,
or body-parse failure — all raised `requests` exceptions) makes `scrape_url`
return `(None, str(e))` instead of raising; with the non-empty exception
message the loop appends the failure to the error list, and the run still
gives every URL exactly one outcome. -/
theorem client_failure_captured_and_run_continues (env : HttpEnv) (k : String)
    (im : Bool) (urls : List String) (out : RunOutcome) (u m : String)
    (hwf : ∀ v ∈ urls, outcomeWF (env ⟨v, k, im⟩) = true)
    (hu : u ∈ urls) (hm : env ⟨u, k, im⟩ = HttpOutcome.exn m)
    (hrun : runScrape env k im urls = some out) :
    scrape_url env u k im = (none, some m) ∧ m ≠ "" ∧
    ErrorRow.mk u m ∈ out.errors ∧
    out.results.length + out.errors.length = urls.length := by
  have hne : m ≠ "" := by
    have h2 := hwf u hu
    rw [hm] at h2
    simpa [outcomeWF, bne_iff_ne] using h2
  obtain ⟨o, ho, _, herr, hlen, _, _, _⟩ := runScrape_char env k im urls hwf
  rw [ho] at hrun
  injection hrun with h2
  subst h2
  refine ⟨by simp [scrape_url, hm], hne, ?_, hlen⟩
  rw [herr, List.mem_filterMap]
  exact ⟨u, hu, by simp [stepError, processUrl_exn env k im u m hm hne]⟩

/-- Witness for C2: the demo run captures the HTTP 500 failure of the second
URL in the error list and still processes all three URLs. -/
theorem client_failure_captured_and_run_continues_witness :
    scrape_url demoEnv "https://b.com" "k" true
        = (none, some "500 Server Error: Internal Server Error") ∧
    "500 Server Error: Internal Server Error" ≠ "" ∧
    ErrorRow.mk "https://b.com" "500 Server Error: Internal Server Error"
        ∈ demoOut.errors ∧
    demoOut.results.length + demoOut.errors.length = demoUrls.length :=
  client_failure_captured_and_run_continues demoEnv "k" true demoUrls demoOut
    "https://b.com" "500 Server Error: Internal Server Error"
    (by decide) (by decide) (by decide) (by decide)

/-- Claim C5: the loop visits the URLs in input order, and both output
sequences preserve that order: the result URLs are the successful URLs in
input order, the error URLs are the failed URLs in input order. -/
theorem run_preserves_input_order (env : HttpEnv) (k : String) (im : Bool)
    (urls : List String) (out : RunOutcome)
    (hwf : ∀ u ∈ urls, outcomeWF (env ⟨u, k, im⟩) = true)
    (hrun : runScrape env k im urls = some out) :
    out.results.map ResultRow.url = urls.filter (fun u => isOk (env ⟨u, k, im⟩)) ∧
    out.errors.map ErrorRow.url = urls.filter (fun u => !isOk (env ⟨u, k, im⟩)) := by
  obtain ⟨o, ho, _, _, _, hmapr, hmape, _⟩ := runScrape_char env k im urls hwf
  rw [ho] at hrun
  injection hrun with h2
  subst h2
  exact ⟨hmapr, hmape⟩

/-- Witness for C5 at the demo run: successes in input order, failures in
input order. -/
theorem run_preserves_input_order_witness :
    demoOut.results.map ResultRow.url
        = demoUrls.filter (fun u => isOk (demoEnv ⟨u, "k", true⟩)) ∧
    demoOut.errors.map ErrorRow.url
        = demoUrls.filter (fun u => !isOk (demoEnv ⟨u, "k", true⟩)) :=
  run_preserves_input_order demoEnv "k" true demoUrls demoOut
    (by decide) (by decide)

/-- Claim C7: a completed run sleeps exactly once after each URL except the
last — `max(N-1, 0)` sleep calls, written `urls.length - 1` in truncated
subtraction, whatever mix of successes and failures occurs — so for `N ≥ 2`
the time spent sleeping, a lower bound on the elapsed time of the run,
equals `(N-1) * delaySeconds`. -/
theorem fixed_rate_throttle (env : HttpEnv) (k : String) (im : Bool)
    (urls : List String) (out : RunOutcome) (delay : ℚ)
    (hwf : ∀ u ∈ urls, outcomeWF (env ⟨u, k, im⟩) = true)
    (hrun : runScrape env k im urls = some out) :
    out.sleeps = urls.length - 1 ∧
    (2 ≤ urls.length →
      totalSleepTime out delay = ((urls.length : ℚ) - 1) * delay) := by
  obtain ⟨o, ho, _, _, _, _, _, hsl⟩ := runScrape_char env k im urls hwf
  rw [ho] at hrun
  injection hrun with h2
  subst h2
  refine ⟨hsl, fun hlen => ?_⟩
  have h1 : (1 : ℕ) ≤ urls.length := by omega
  rw [totalSleepTime, hsl, Nat.cast_sub h1, Nat.cast_one]

/-- Witness for C7: the three-URL demo run sleeps twice, and with a delay of
one second the sleeping time is `(3-1) * 1`. -/
theorem fixed_rate_throttle_witness :
    demoOut.sleeps = demoUrls.length - 1 ∧
    (2 ≤ demoUrls.length →
      totalSleepTime demoOut 1 = ((demoUrls.length : ℚ) - 1) * 1) :=
  fixed_rate_throttle demoEnv "k" true demoUrls demoOut 1 (by decide) (by decide)

/-- Claim C10: the summary CSV and the aggregate JSON are offered only when
the results list is non-empty; in a completed run in which every URL fails,
the results list is empty, so neither artifact is offered while the errors
CSV is. -/
theorem all_failure_export_suppression (env : HttpEnv) (k : String) (im : Bool)
    (urls : List String) (out : RunOutcome)
    (hne : urls ≠ [])
    (hfail : ∀ u ∈ urls, ∃ m, env ⟨u, k, im⟩ = HttpOutcome.exn m ∧ m ≠ "")
    (hrun : runScrape env k im urls = some out) :
    (∀ rs es, ((exportOffers rs es).summaryCsv = true → rs ≠ []) ∧
        ((exportOffers rs es).aggregateJson = true → rs ≠ [])) ∧
    out.results = [] ∧
    exportOffers out.results out.errors = ⟨false, true, false⟩ := by
  have hwf : ∀ u ∈ urls, outcomeWF (env ⟨u, k, im⟩) = true := by
    intro u hu
    obtain ⟨m, hm, hne2⟩ := hfail u hu
    rw [hm]
    simpa [outcomeWF, bne_iff_ne] using hne2
  obtain ⟨o, ho, _, _, hlen, hmapr, _, _⟩ := runScrape_char env k im urls hwf
  rw [ho] at hrun
  injection hrun with h2
  subst h2
  have hfilter : urls.filter (fun u => isOk (env ⟨u, k, im⟩)) = [] := by
    rw [List.filter_eq_nil_iff]
    intro u hu
    obtain ⟨m, hm, _⟩ := hfail u hu
    simp [hm, isOk]
  have hresnil : o.results = [] := by
    rw [hfilter] at hmapr
    exact List.map_eq_nil_iff.mp hmapr
  have herrne : o.errors ≠ [] := by
    intro h3
    rw [hresnil, h3] at hlen
    simp at hlen
    exact hne (List.length_eq_zero.mp hlen.symm)
  refine ⟨?_, hresnil, ?_⟩
  · intro rs es
    constructor <;> intro h3 h4 <;> subst h4 <;> simp [exportOffers] at h3
  · cases herrs : o.errors with
    | nil => exact absurd herrs herrne
    | cons a es => simp [exportOffers, hresnil, herrs]

/-- Witness for C10: a one-URL run in which the only URL fails offers the
errors CSV but neither the summary CSV nor the aggregate JSON. -/
theorem all_failure_export_suppression_witness :
    (∀ rs es, ((exportOffers rs es).summaryCsv = true → rs ≠ []) ∧
        ((exportOffers rs es).aggregateJson = true → rs ≠ [])) ∧
    demoFailOut.results = [] ∧
    exportOffers demoFailOut.results demoFailOut.errors = ⟨false, true, false⟩ :=
  all_failure_export_suppression demoFailEnv "k" true ["https://a.com"] demoFailOut
    (by decide)
    (fun u _ => ⟨"connection refused", rfl, by decide⟩)
    (by decide)

/-- Helper: for an absent-or-string field, the stored `get(k, d)` value is
the string the spec's "field or default" denotes. -/
theorem getD_strOrAbsent (p : RawPayload) (k d : String)
    (h : strOrAbsent p k = true) :
    (pget p k).getD (.jstr d) = JVal.jstr (specField p k d) := by
  unfold strOrAbsent at h
  unfold specField
  cases hg : pget p k with
  | none => simp
  | some v =>
    rw [hg] at h
    cases v with
    | jstr s => simp
    | jnull => simp at h
    | jbool b => simp at h
    | jnum n => simp at h

/-- Helper: for an absent-or-string field, the guarded length computation
returns the length of the spec's "field or empty string". -/
theorem fieldLen_strOrAbsent (p : RawPayload) (k : String)
    (h : strOrAbsent p k = true) :
    fieldLen p k = some (specField p k "").length := by
  unfold strOrAbsent at h
  unfold fieldLen specField
  cases hg : pget p k with
  | none => simp
  | some v =>
    rw [hg] at h
    cases v with
    | jstr s =>
      by_cases hs : s = ""
      · subst hs
        simp [JVal.truthy]
      · simp [JVal.truthy, bne_iff_ne, hs, pyLen]
    | jnull => simp at h
    | jbool b => simp at h
    | jnum n => simp at h

/-- Helper: the components of a successfully built result row. -/
theorem mkRow_fields (u : String) (p : RawPayload) (r : ResultRow)
    (h : mkRow u p = some r) :
    r.url = u ∧ r.title = (pget p "title").getD (.jstr "N/A") ∧
    r.description = (pget p "description").getD (.jstr "N/A") ∧
    fieldLen p "text" = some r.content_length ∧
    fieldLen p "markdown" = some r.markdown_length ∧
    r.full_result = p := by
  unfold mkRow at h
  split at h
  · rename_i cl ml hcl hml
    injection h with h2
    subst h2
    exact ⟨rfl, rfl, rfl, hcl, hml, rfl⟩
  · exact absurd h (by simp)

/-- Claim C6: in a completed run, a successful URL whose payload has its four
optional fields absent or string-valued yields a result row with
`title = rawPayload.title or "N/A"`, `description = rawPayload.description
or "N/A"`, `content_length = length(rawPayload.text or "")` and
`markdown_length = length(rawPayload.markdown or "")`, carrying the URL and
the raw payload. -/
theorem success_row_field_defaults (env : HttpEnv) (k : String) (im : Bool)
    (urls : List String) (out : RunOutcome) (u : String) (p : RawPayload)
    (hwf : ∀ v ∈ urls, outcomeWF (env ⟨v, k, im⟩) = true)
    (hu : u ∈ urls) (hp : env ⟨u, k, im⟩ = HttpOutcome.ok p)
    (h1 : strOrAbsent p "title" = true) (h2 : strOrAbsent p "description" = true)
    (h3 : strOrAbsent p "text" = true) (h4 : strOrAbsent p "markdown" = true)
    (hrun : runScrape env k im urls = some out) :
    ∃ r, r ∈ out.results ∧ r.url = u ∧
      r.title = JVal.jstr (specField p "title" "N/A") ∧
      r.description = JVal.jstr (specField p "description" "N/A") ∧
      r.content_length = (specField p "text" "").length ∧
      r.markdown_length = (specField p "markdown" "").length ∧
      r.full_result = p := by
  obtain ⟨o, ho, hres, _, _, _, _, _⟩ := runScrape_char env k im urls hwf
  rw [ho] at hrun
  injection hrun with heq
  subst heq
  obtain ⟨r, hmk, hproc, hurl⟩ := processUrl_ok env k im u p hp (by
    simp [outcomeWF, fieldLen_strOrAbsent p "text" h3,
      fieldLen_strOrAbsent p "markdown" h4])
  obtain ⟨hu2, ht, hd, hcl, hml, hfull⟩ := mkRow_fields u p r hmk
  refine ⟨r, ?_, hu2, ?_, ?_, ?_, ?_, hfull⟩
  · rw [hres, List.mem_filterMap]
    exact ⟨u, hu, by simp [stepResult, hproc]⟩
  · rw [ht]
    exact getD_strOrAbsent p "title" "N/A" h1
  · rw [hd]
    exact getD_strOrAbsent p "description" "N/A" h2
  · have h5 := fieldLen_strOrAbsent p "text" h3
    rw [hcl] at h5
    exact Option.some.inj h5
  · have h5 := fieldLen_strOrAbsent p "markdown" h4
    rw [hml] at h5
    exact Option.some.inj h5

/-- Witness for C6 at the spec scenario payload `{"title": "Example",
"text": "hello"}`: the demo run records `title="Example"`,
`description="N/A"`, lengths 5 and 0. -/
theorem success_row_field_defaults_witness :
    ∃ r, r ∈ demoOut.results ∧ r.url = "https://a.com" ∧
      r.title = JVal.jstr (specField demoPayloadA "title" "N/A") ∧
      r.description = JVal.jstr (specField demoPayloadA "description" "N/A") ∧
      r.content_length = (specField demoPayloadA "text" "").length ∧
      r.markdown_length = (specField demoPayloadA "markdown" "").length ∧
      r.full_result = demoPayloadA :=
  success_row_field_defaults demoEnv "k" true demoUrls demoOut "https://a.com"
    demoPayloadA (by decide) (by decide) (by decide) (by decide) (by decide)
    (by decide) (by decide) (by decide)

/-- Claim C9: when a payload maps `text` (respectively `markdown`) to JSON
null or any other falsy value, the guarded length computation returns `0`
without raising — `len` is never applied to the null field — and with both
fields falsy the appended row records both lengths as `0`. -/
theorem falsy_field_length_guard (url : String) (p : RawPayload) (v : JVal)
    (hv : v.truthy = false) :
    (pget p "text" = some v → fieldLen p "text" = some 0) ∧
    (pget p "markdown" = some v → fieldLen p "markdown" = some 0) ∧
    (pget p "text" = some v → pget p "markdown" = some v →
      ∃ r, mkRow url p = some r ∧ r.content_length = 0 ∧ r.markdown_length = 0) := by
  have h1 : ∀ q : String, pget p q = some v → fieldLen p q = some 0 := by
    intro q hq
    simp [fieldLen, hq, hv]
  refine ⟨h1 "text", h1 "markdown", ?_⟩
  intro ht hm
  refine ⟨{ url := url
          , title := (pget p "title").getD (.jstr "N/A")
          , description := (pget p "description").getD (.jstr "N/A")
          , content_length := 0
          , markdown_length := 0
          , full_result := p }, ?_, rfl, rfl⟩
  simp [mkRow, h1 "text" ht, h1 "markdown" hm]

/-- Witness for C9 at a payload whose `text` and `markdown` are JSON null:
both lengths are recorded as 0 and the row is built without raising. -/
theorem falsy_field_length_guard_witness :
    (pget demoNullPayload "text" = some JVal.jnull →
        fieldLen demoNullPayload "text" = some 0) ∧
    (pget demoNullPayload "markdown" = some JVal.jnull →
        fieldLen demoNullPayload "markdown" = some 0) ∧
    (pget demoNullPayload "text" = some JVal.jnull →
      pget demoNullPayload "markdown" = some JVal.jnull →
      ∃ r, mkRow "https://x.com" demoNullPayload = some r ∧
        r.content_length = 0 ∧ r.markdown_length = 0) :=
  falsy_field_length_guard "https://x.com" demoNullPayload JVal.jnull (by decide)

/-- Helper: the head of a filtered list is the first element satisfying the
predicate. -/
theorem head_filter_eq_find (p : α → Bool) : ∀ l : List α,
    (l.filter p).head? = l.find? p
  | [] => rfl
  | a :: t => by
    cases h : p a with
    | true => simp [List.filter_cons, List.find?_cons, h]
    | false => simp [List.filter_cons, List.find?_cons, h, head_filter_eq_find p t]

/-- Claim C3: on a supported, parsed table with at least one column, the
extractor selects the first (leftmost) column whose name contains "url"
case-insensitively — even when it is not the first column — with no warning;
when no column name contains "url" it selects the leftmost column and sets
the non-fatal warning flag, and in both cases a URL list is returned rather
than an error. -/
theorem url_column_selection (f : UploadedFile) (t : Table)
    (hp : f.parsed = some t)
    (hext : fileExtension f.name ∈ supportedExtensions)
    (hne : t.columns ≠ []) :
    ∃ c w, selectColumn t.columns = some (c, w) ∧
      read_urls_from_file f = ReadOutcome.urls (extractUrls t c) w ∧
      (∀ d, t.columns.find? containsUrl = some d → c = d ∧ w = false) ∧
      (t.columns.find? containsUrl = none → t.columns.head? = some c ∧ w = true) := by
  have hcond : (fileExtension f.name == "csv" || fileExtension f.name == "xlsx"
      || fileExtension f.name == "xls") = true := by
    simp only [supportedExtensions, List.mem_cons, List.not_mem_nil, or_false] at hext
    rcases hext with h | h | h <;> simp [h]
  rcases hf : t.columns.filter containsUrl with _ | ⟨c0, cs⟩
  · have hfind : t.columns.find? containsUrl = none := by
      rw [← head_filter_eq_find, hf]
      rfl
    obtain ⟨d0, ds, hcols⟩ := List.exists_cons_of_ne_nil hne
    have hsel : selectColumn t.columns = some (d0, true) := by
      unfold selectColumn
      rw [hf, hcols]
    refine ⟨d0, true, hsel, ?_, ?_, ?_⟩
    · simp [read_urls_from_file, hcond, hp, hsel]
    · intro d hd
      rw [hfind] at hd
      exact absurd hd (by simp)
    · intro _
      rw [hcols]
      exact ⟨rfl, rfl⟩
  · have hfind : t.columns.find? containsUrl = some c0 := by
      rw [← head_filter_eq_find, hf]
      rfl
    have hsel : selectColumn t.columns = some (c0, false) := by
      unfold selectColumn
      rw [hf]
    refine ⟨c0, false, hsel, ?_, ?_, ?_⟩
    · simp [read_urls_from_file, hcond, hp, hsel]
    · intro d hd
      rw [hfind] at hd
      injection hd with h3
      exact ⟨h3, rfl⟩
    · intro hd
      rw [hfind] at hd
      exact absurd hd (by simp)

/-- Witness for C3 at a demo CSV whose URL column is the second column:
`Landing URL` is selected, not `name`, with no warning. -/
theorem url_column_selection_witness :
    ∃ c w, selectColumn demoTable.columns = some (c, w) ∧
      read_urls_from_file demoFile = ReadOutcome.urls (extractUrls demoTable c) w ∧
      (∀ d, demoTable.columns.find? containsUrl = some d → c = d ∧ w = false) ∧
      (demoTable.columns.find? containsUrl = none →
        demoTable.columns.head? = some c ∧ w = true) :=
  url_column_selection demoFile demoTable rfl (by decide) (by decide)

/-- Helper: a cell produced by `cellAt` is NaN or one of the row's cells. -/
theorem cellAt_none_or_mem : ∀ (r : List (Option String)) (i : Nat),
    cellAt r i = none ∨ cellAt r i ∈ r
  | [], _ => Or.inl rfl
  | _ :: _, 0 => Or.inr (List.mem_cons_self _ _)
  | _ :: r, n + 1 =>
    match cellAt_none_or_mem r n with
    | Or.inl h => Or.inl h
    | Or.inr h => Or.inr (List.mem_cons_of_mem _ h)

/-- Helper: in a pandas-normalized table no column cell holds `some ""`. -/
theorem columnValues_no_empty (t : Table) (c : String)
    (hn : normalizedTable t = true) :
    ∀ o ∈ columnValues t c, o ≠ some "" := by
  intro o ho
  rw [columnValues, List.mem_map] at ho
  obtain ⟨r, hr, hcell⟩ := ho
  rcases cellAt_none_or_mem r (colIdx t.columns c) with h | h
  · rw [← hcell, h]
    simp
  · rw [normalizedTable, List.all_eq_true] at hn
    have h2 := hn r hr
    rw [List.all_eq_true] at h2
    have h3 := h2 _ h
    rw [← hcell]
    simpa [bne_iff_ne] using h3

/-- Helper: dropping NaN cells is the same as taking the non-empty cell
values when no cell holds the empty string. -/
theorem filterMap_id_eq_filter_getD (l : List (Option String))
    (h : ∀ o ∈ l, o ≠ some "") :
    l.filterMap id = (l.map (fun o => o.getD "")).filter (fun s => !(s == "")) := by
  induction l with
  | nil => rfl
  | cons o t ih =>
    have ht := ih (fun x hx => h x (List.mem_cons_of_mem _ hx))
    cases o with
    | none => simpa [List.filterMap_cons] using ht
    | some s =>
      have hs : s ≠ "" := by
        intro e
        exact h (some s) (List.mem_cons_self _ _) (by rw [e])
      simp [List.filterMap_cons, ht, hs]

/-- Claim C4: on a pandas-normalized parsed table and its selected column,
the extraction is exactly the ordered sequence of the column's non-empty
cell values (rows with missing/empty cells are silently dropped), its length
is at most the number of rows, and it contains no empty entries. -/
theorem nonempty_cell_extraction (t : Table) (c : String) (w : Bool)
    (hn : normalizedTable t = true)
    (_hsel : selectColumn t.columns = some (c, w)) :
    extractUrls t c
        = ((columnValues t c).map (fun o => o.getD "")).filter (fun s => !(s == "")) ∧
    (extractUrls t c).length ≤ t.rows.length ∧
    ∀ s ∈ extractUrls t c, s ≠ "" := by
  refine ⟨filterMap_id_eq_filter_getD _ (columnValues_no_empty t c hn), ?_, ?_⟩
  · have h1 : (columnValues t c).length = t.rows.length := by
      rw [columnValues]
      exact List.length_map _ _
    calc (extractUrls t c).length
        ≤ (columnValues t c).length := List.length_filterMap_le _ _
      _ = t.rows.length := h1
  · intro s hs
    rw [extractUrls, List.mem_filterMap] at hs
    obtain ⟨o, ho, hid⟩ := hs
    have h2 := columnValues_no_empty t c hn o ho
    intro e
    subst e
    exact h2 (by simpa using hid)

/-- Witness for C4 at the spec scenario: column `URL` with cells
`https://a.com`, an empty (NaN) cell, `https://b.com`. -/
theorem nonempty_cell_extraction_witness :
    extractUrls demoUrlTable "URL"
        = ((columnValues demoUrlTable "URL").map (fun o => o.getD "")).filter
            (fun s => !(s == "")) ∧
    (extractUrls demoUrlTable "URL").length ≤ demoUrlTable.rows.length ∧
    ∀ s ∈ extractUrls demoUrlTable "URL", s ≠ "" :=
  nonempty_cell_extraction demoUrlTable "URL" false (by decide) (by decide)

/-- Claim C8: a file whose lowercased after-the-last-dot extension is neither
`csv` nor `xlsx` nor `xls` makes `read_urls_from_file` fail with the
unsupported-format error: no URLs are extracted, and the scrape section —
hence the Scrape Client — is never reached. -/
theorem unsupported_extension_fatal (f : UploadedFile)
    (h : fileExtension f.name ∉ supportedExtensions) :
    read_urls_from_file f = ReadOutcome.unsupportedFormat ∧ urlsToScrape f = none := by
  simp only [supportedExtensions, List.mem_cons, List.not_mem_nil, or_false,
    not_or] at h
  obtain ⟨h1, h2, h3⟩ := h
  have hread : read_urls_from_file f = ReadOutcome.unsupportedFormat := by
    simp [read_urls_from_file, h1, h2, h3]
  exact ⟨hread, by simp [urlsToScrape, hread]⟩

/-- Witness for C8: a `.txt` upload is rejected before any URL extraction,
whatever the file would have parsed to. -/
theorem unsupported_extension_fatal_witness :
    read_urls_from_file demoTxtFile = ReadOutcome.unsupportedFormat ∧
    urlsToScrape demoTxtFile = none :=
  unsupported_extension_fatal demoTxtFile (by decide)
